import Mathlib

/-!
Verification of the transaction-orchestration state machine of the bank dApp
component (`src/components/BankApp.tsx`).

Modelling conventions, stated once:

* Token amounts are `Int` (JavaScript `bigint`), in the ledger's smallest unit
  (18 decimals).
* A `useReadContract` value that has never resolved (JS `undefined`) is `none`.
* The `amount` text field is a `String`; the empty string is JS-falsy, so the
  guards `if (!amount ...) return` test `amount = ""`.
* The `balance` display string is modelled by the token value it was last
  formatted from (`Option Int`, `none` for the initial empty string): the
  `formatUnits`/`toFixed` rendering is a presentation-layer function of that
  value and is not itself in scope.
* viem's `parseUnits` is modelled as `Option Int`: `none` means the call threw
  (non-decimal input), which the component's `try`/`catch` blocks intercept.
* A state-changing submission (`writeContract` from wagmi's `useWriteContract`)
  is a React Query mutate: it never throws into the caller. On success the
  matching `useEffect` picks up the returned hash; on a submission failure
  (the spec's `SubmissionError`: wallet or node rejection) the error is
  delivered only through hook state this component never reads, so the
  handlers' `catch` blocks — which intercept only synchronous throws from
  argument evaluation such as `parseUnits` — never run: flags set before the
  call stay set, and no success effect ever fires.
* `publicClient` may be absent (`none` from `usePublicClient`); it is passed as
  a `Bool` flag to the guards that test it.
-/

/-- A decimal digit character, as matched by viem's amount format. -/
def isDigitChar (c : Char) : Bool := '0' ≤ c && c ≤ '9'

/-- Value of a digit string (most significant first), as `BigInt` builds it. -/
def digitsToNat (l : List Char) : Nat :=
  l.foldl (fun acc c => acc * 10 + (c.toNat - '0'.toNat)) 0

/-- viem's amount format: an optional leading minus sign, digits, an optional
decimal point, digits (all parts may be empty). -/
def validAmountFormat (s : String) : Bool :=
  let l := s.data
  let l := if l.head? = some '-' then l.tail else l
  let rest := l.dropWhile isDigitChar
  match rest with
  | [] => true
  | '.' :: fr => fr.all isDigitChar
  | _ => false

/-- viem `parseUnits(value, decimals)`: splits the decimal string at the dot,
trims trailing zeros of the fraction, pads the fraction to `decimals` digits
(rounding half-up when it is longer, with the carry propagating into the
integer part), and returns the signed integer. `none` models the exception
thrown on input that is not a decimal numeral. -/
def parseUnits (value : String) (decimals : Nat) : Option Int :=
  if validAmountFormat value then
    let l := value.data
    let negative := l.head? = some '-'
    let l := if negative then l.tail else l
    let integer := l.takeWhile isDigitChar
    let rest := l.dropWhile isDigitChar
    let fraction := match rest with | '.' :: fr => fr | _ => []
    let fraction := (fraction.reverse.dropWhile (fun c => c = '0')).reverse
    let fracN :=
      if fraction.length ≤ decimals then
        digitsToNat fraction * 10 ^ (decimals - fraction.length)
      else
        let keep := fraction.take decimals
        let tail := fraction.drop decimals
        digitsToNat keep + (if 2 * digitsToNat tail ≥ 10 ^ tail.length then 1 else 0)
    let mag : Nat := digitsToNat integer * 10 ^ decimals + fracN
    some (if negative then -(mag : Int) else (mag : Int))
  else
    none

/-- The component's state variables plus the two `useReadContract` caches.
`balance` is the token value the balance display was last formatted from. -/
structure AppState where
  amount : String
  balance : Option Int
  isApproved : Bool
  isLoading : Bool
  progress : Nat
  allowance : Option Int
  bankBalance : Option Int
deriving Repr, DecidableEq

/-- The JS condition `allowance && allowance < depositAmount` in
`handleDeposit`: `undefined` and `0n` are falsy. -/
def allowanceBelow (allowance : Option Int) (depositAmount : Int) : Bool :=
  match allowance with
  | none => false
  | some a => a ≠ 0 && a < depositAmount

/-- The `useEffect` on `[allowance, amount]` (lines 62-69): when `allowance`
has been observed and `amount` is non-empty, `isApproved` becomes
`allowance >= parseUnits(amount, 18)`; with an empty `amount` it becomes
`allowance > 0n`; with `allowance` unobserved the previous value is kept (the
initial `useState(false)` if it never ran). If `parseUnits` throws inside the
effect the update is not applied. -/
def isApprovedUpdate (allowance : Option Int) (amount : String) (prev : Bool) : Bool :=
  match allowance with
  | none => prev
  | some al =>
    if amount ≠ "" then
      match parseUnits amount 18 with
      | some required => decide (required ≤ al)
      | none => prev
    else decide (0 < al)

/-- The literal `0xfff...f` (64 `f`s) in `handleApprove`. -/
def maxUint256 : Int :=
  0xffffffffffffffffffffffffffffffffffffffffffffffffffffffffffffffff

/-- What a single call of `handleApprove` does. -/
inductive ApproveAction
  | noop
  | submitApprove (amt : Int)
deriving Repr, DecidableEq

/-- `handleApprove` (lines 103-120): returns unless `amount` is non-empty and
`publicClient` is present, otherwise submits an approval for `maxUint256`. -/
def handleApprove (publicClient : Bool) (s : AppState) : ApproveAction :=
  if s.amount = "" ∨ publicClient = false then ApproveAction.noop
  else ApproveAction.submitApprove maxUint256

/-- What a single call of `handleDeposit` does. -/
inductive DepositAction
  | noop
  | parseError
  | callApprove
  | submitDeposit (amt : Int)
deriving Repr, DecidableEq

/-- `handleDeposit` (lines 123-146): early-returns on empty `amount` or missing
`publicClient`; parses the amount (a thrown parse lands in `catch`); without
`skipApprovalCheck`, delegates to `handleApprove` when
`!isApproved || (allowance && allowance < depositAmount)`; otherwise submits
the deposit for the parsed amount. -/
def handleDeposit (skipApprovalCheck publicClient : Bool) (s : AppState) : DepositAction :=
  if s.amount = "" ∨ publicClient = false then DepositAction.noop
  else
    match parseUnits s.amount 18 with
    | none => DepositAction.parseError
    | some depositAmount =>
      if !skipApprovalCheck && (!s.isApproved || allowanceBelow s.allowance depositAmount)
      then DepositAction.callApprove
      else DepositAction.submitDeposit depositAmount

/-- What a single call of `handleWithdraw` does. -/
inductive WithdrawAction
  | noop
  | parseError
  | submitWithdraw (amt : Int)
deriving Repr, DecidableEq

/-- `handleWithdraw` (lines 149-165): early-returns on empty `amount` or
missing `publicClient`, otherwise submits the withdraw for the parsed amount
with no further checks (a thrown parse lands in `catch`, no submission). -/
def handleWithdraw (publicClient : Bool) (s : AppState) : WithdrawAction :=
  if s.amount = "" ∨ publicClient = false then WithdrawAction.noop
  else
    match parseUnits s.amount 18 with
    | none => WithdrawAction.parseError
    | some a => WithdrawAction.submitWithdraw a

/-- The deposit/approve button: `disabled={!amount || isLoading}`, so the click
reaches `handleDeposit()` only when `amount` is non-empty and `isLoading` is
false. -/
def clickDeposit (publicClient : Bool) (s : AppState) : DepositAction :=
  if s.amount ≠ "" ∧ s.isLoading = false then handleDeposit false publicClient s
  else DepositAction.noop

/-- The withdraw button: `disabled={!amount || isLoading}`. -/
def clickWithdraw (publicClient : Bool) (s : AppState) : WithdrawAction :=
  if s.amount ≠ "" ∧ s.isLoading = false then handleWithdraw publicClient s
  else WithdrawAction.noop

/-- The deposit-flow authorization decision, composed from the `isApproved`
effect (with its initial `useState(false)` value when the allowance was never
observed) and the guard in `handleDeposit`: the flow proceeds to the deposit
submission exactly when `isApproved && !(allowance && allowance < amount)`. -/
def decideSufficient (headroom : Option Int) (requested : Int) : Bool :=
  let isAp :=
    match headroom with
    | none => false
    | some al => decide (requested ≤ al)
  isAp && !(allowanceBelow headroom requested)

/-- Bridge: on a state whose `isApproved` is what the effect computes for the
current allowance and (parseable, non-empty) amount, `handleDeposit` without
the skip flag submits the deposit exactly when `decideSufficient` says the
headroom is sufficient. -/
theorem handleDeposit_decideSufficient (s : AppState) (a : Int)
    (hne : s.amount ≠ "") (hparse : parseUnits s.amount 18 = some a)
    (hap : s.isApproved = isApprovedUpdate s.allowance s.amount false) :
    (handleDeposit false true s = DepositAction.submitDeposit a) ↔
      decideSufficient s.allowance a = true := by
  cases hal : s.allowance with
  | none =>
    simp [handleDeposit, hne, hparse, decideSufficient, allowanceBelow, hal,
      hap, isApprovedUpdate]
  | some al =>
    simp only [handleDeposit, hne, hparse, decideSufficient, allowanceBelow, hal,
      hap, isApprovedUpdate, if_neg, hne]
    by_cases hle : a ≤ al
    · simp [hne, hle]
    · simp [hne, hle]

/-- C1: for every positive `TokenAmount a` and observed headroom `h`, the
authorization decision is sufficient iff `h ≥ a`; with the headroom never
observed the decision is insufficient. -/
theorem claim_C1 (a h : Int) (hpos : 0 < a) :
    decideSufficient (some h) a = decide (a ≤ h) ∧
      decideSufficient none a = false := by
  constructor
  · simp only [decideSufficient, allowanceBelow]
    by_cases hle : a ≤ h
    · have : ¬ (h < a) := by omega
      simp [hle, this]
    · simp [hle]
  · simp [decideSufficient]

/-- Witness for C1 at `a = 3`, `h = 5`. -/
theorem claim_C1_witness :
    (0 : Int) < 3 ∧
      (decideSufficient (some 5) 3 = decide ((3 : Int) ≤ 5) ∧
        decideSufficient none 3 = false) :=
  ⟨by decide, claim_C1 3 5 (by decide)⟩

/-- Externally visible ledger interactions of one flow, in order. -/
inductive Event
  | approveSubmit (amt : Int)
  | approveConfirmed
  | approveFailed
  | depositSubmit (amt : Int)
  | depositConfirmed
  | depositFailed
  | withdrawSubmit (amt : Int)
  | withdrawConfirmed
  | withdrawFailed
  | allowanceRead (v : Int)
  | balanceRead (v : Int)
deriving Repr, DecidableEq

/-- Result of `publicClient.waitForTransactionReceipt` for a submitted hash. -/
inductive Outcome
  | confirmed
  | failed
deriving Repr, DecidableEq

/-- The remote ledger's current answers to the two reads. -/
structure Ledger where
  allowance : Int
  escrowBalance : Int
deriving Repr, DecidableEq

/-- Environment outcomes for one deposit-flow run: whether each
`writeContract` submission succeeds (otherwise it throws into the handler's
`catch`), and how each confirmation wait resolves. -/
structure FlowOutcomes where
  approveSubmitOk : Bool
  approveConfirm : Outcome
  depositSubmitOk : Bool
  depositConfirm : Outcome
deriving Repr, DecidableEq

/-- Net state effect of `waitForTransaction` (lines 86-100): whatever the
outcome, the `finally` block leaves `progress = 0` and `isLoading = false`. -/
def waitForTransaction (s : AppState) : AppState :=
  { s with progress := 0, isLoading := false }

/-- The `useEffect` on `[bankBalance]` (lines 52-59): a truthy `bankBalance`
(observed and nonzero) is formatted into the balance display. -/
def balanceEffect (s : AppState) : AppState :=
  match s.bankBalance with
  | some v => if v ≠ 0 then { s with balance := some v } else s
  | none => s

/-- Re-application of the `isApproved` effect after its dependencies
(`allowance`, `amount`) change. -/
def approvalEffect (s : AppState) : AppState :=
  { s with isApproved := isApprovedUpdate s.allowance s.amount s.isApproved }

/-- The `.then` continuation of the deposit confirmation effect (lines
178-185): `refetchBalance()` re-reads the escrow balance (triggering the
balance display effect), then `setAmount('')` (re-triggering the `isApproved`
effect). -/
def depositConfirmContinuation (L : Ledger) (s : AppState) : AppState × List Event :=
  let s1 := balanceEffect { s with bankBalance := some L.escrowBalance }
  (approvalEffect { s1 with amount := "" }, [Event.balanceRead L.escrowBalance])

/-- The deposit-submission half of `handleDeposit` (lines 133-140) followed by
the deposit confirmation effect: set `isLoading`/`progress`, submit. On a
successful submission the effect awaits confirmation (`waitForTransaction`,
whose `finally` resets the indicators) and only a confirmed wait runs the
refresh continuation. On a submission failure the mutate's error never
reaches the handler's `catch`, `depositSuccess` never turns true, and nothing
resets the flags: the run ends stuck at `isLoading = true`, `progress = 25`,
with no tracked transaction. -/
def depositSubmitPhase (o : FlowOutcomes) (L : Ledger) (amt : Int) (s : AppState) :
    AppState × List Event :=
  let s1 := { s with isLoading := true, progress := 25 }
  if o.depositSubmitOk then
    match o.depositConfirm with
    | Outcome.confirmed =>
      let (s2, ev) := depositConfirmContinuation L (waitForTransaction s1)
      (s2, [Event.depositSubmit amt, Event.depositConfirmed] ++ ev)
    | Outcome.failed =>
      (waitForTransaction s1, [Event.depositSubmit amt, Event.depositFailed])
  else
    (s1, [])

/-- One full deposit-flow run from a user click on the deposit button, for a
fixed amount string: `handleDeposit(false)`; if the guard finds the
authorization insufficient it delegates to `handleApprove` (which sets the
indicators and submits `approve(maxUint256)`), and the approve confirmation
effect (lines 168-175) — only on a confirmed wait — runs `refetchAllowance()`
(re-triggering the `isApproved` effect) and `handleDeposit(true)`, which
re-parses the unchanged amount and submits the deposit with the sufficiency
check bypassed. A failed approve confirmation runs no continuation. A failed
approve submission never reaches the `catch` (mutate semantics) and
`approveSuccess` never turns true, so the run ends stuck at
`isLoading = true`, `progress = 10`. -/
def depositFlow (publicClient : Bool) (o : FlowOutcomes) (L : Ledger) (s : AppState) :
    AppState × List Event :=
  if s.amount = "" ∨ publicClient = false then (s, [])
  else
    match parseUnits s.amount 18 with
    | none => (s, [])
    | some depositAmount =>
      if !s.isApproved || allowanceBelow s.allowance depositAmount then
        let s1 := { s with isLoading := true, progress := 10 }
        if o.approveSubmitOk then
          match o.approveConfirm with
          | Outcome.failed =>
            (waitForTransaction s1, [Event.approveSubmit maxUint256, Event.approveFailed])
          | Outcome.confirmed =>
            let s2 := approvalEffect
              { waitForTransaction s1 with allowance := some L.allowance }
            let (s3, tr) := depositSubmitPhase o L depositAmount s2
            (s3, [Event.approveSubmit maxUint256, Event.approveConfirmed,
                  Event.allowanceRead L.allowance] ++ tr)
        else
          (s1, [])
      else
        depositSubmitPhase o L depositAmount s

/-- One full withdraw-flow run from a user click on the withdraw button:
`handleWithdraw` sets the indicators, evaluates `parseUnits` (this throw is
synchronous, so it does land in `catch`, which resets them), submits; the
withdraw confirmation effect (lines 188-195) awaits the wait and, only when
confirmed, re-reads the escrow balance and clears the amount field. A failed
withdraw submission never reaches the `catch` (mutate semantics) and
`withdrawSuccess` never turns true, so the run ends stuck at
`isLoading = true`, `progress = 25`. -/
def withdrawFlow (publicClient submitOk : Bool) (confirm : Outcome) (L : Ledger)
    (s : AppState) : AppState × List Event :=
  if s.amount = "" ∨ publicClient = false then (s, [])
  else
    let s1 := { s with isLoading := true, progress := 25 }
    match parseUnits s.amount 18 with
    | none => ({ s1 with isLoading := false, progress := 0 }, [])
    | some amt =>
      if submitOk then
        match confirm with
        | Outcome.failed =>
          (waitForTransaction s1, [Event.withdrawSubmit amt, Event.withdrawFailed])
        | Outcome.confirmed =>
          let s2 := balanceEffect
            { waitForTransaction s1 with bankBalance := some L.escrowBalance }
          (approvalEffect { s2 with amount := "" },
            [Event.withdrawSubmit amt, Event.withdrawConfirmed,
             Event.balanceRead L.escrowBalance])
      else
        (s1, [])

/-- `handleGetBalance` (lines 72-83): awaits `refetchBalance()` (the hook's
cache becomes the fresh value), then tests and formats the `bankBalance`
captured in the handler's closure at render time — not the refetched value. -/
def handleGetBalance (fresh : Int) (s : AppState) : AppState :=
  let closure := s.bankBalance
  let s1 := { s with bankBalance := some fresh }
  match closure with
  | some v => if v ≠ 0 then { s1 with balance := some v } else s1
  | none => s1

set_option maxRecDepth 8000

/-- Event classifiers used to count submissions in a trace. -/
def eventIsApproveSubmit : Event → Bool
  | Event.approveSubmit _ => true
  | _ => false

/-- Classifier for deposit submissions. -/
def eventIsDepositSubmit : Event → Bool
  | Event.depositSubmit _ => true
  | _ => false

/-- Classifier for the two confirmed-read events. -/
def eventIsRead : Event → Bool
  | Event.allowanceRead _ => true
  | Event.balanceRead _ => true
  | _ => false

/-- A trace contains a confirmed read of allowance or balance. -/
def hasRead (tr : List Event) : Bool := tr.any eventIsRead

/-- The deposit-submission phase never emits an approval submission. -/
theorem approveSubmit_not_mem_depositSubmitPhase (o : FlowOutcomes) (L : Ledger)
    (amt : Int) (s : AppState) (v : Int) :
    Event.approveSubmit v ∉ (depositSubmitPhase o L amt s).2 := by
  cases hd : o.depositSubmitOk <;> cases hc : o.depositConfirm <;>
    simp [depositSubmitPhase, depositConfirmContinuation, hd, hc]

/-- The deposit-submission phase emits exactly one deposit submission when the
submission succeeds and none when it throws. -/
theorem depositSubmitPhase_countDeposit (o : FlowOutcomes) (L : Ledger)
    (amt : Int) (s : AppState) :
    (depositSubmitPhase o L amt s).2.countP eventIsDepositSubmit
      = (if o.depositSubmitOk = true then 1 else 0) := by
  cases hd : o.depositSubmitOk <;> cases hc : o.depositConfirm <;>
    simp [depositSubmitPhase, depositConfirmContinuation, hd, hc,
      eventIsDepositSubmit]

/-- The deposit-submission phase emits no approval submissions. -/
theorem depositSubmitPhase_countApprove (o : FlowOutcomes) (L : Ledger)
    (amt : Int) (s : AppState) :
    (depositSubmitPhase o L amt s).2.countP eventIsApproveSubmit = 0 := by
  cases hd : o.depositSubmitOk <;> cases hc : o.depositConfirm <;>
    simp [depositSubmitPhase, depositConfirmContinuation, hd, hc,
      eventIsApproveSubmit]

/-- After a successful submission, `waitForTransaction` runs and its `finally`
always leaves the loading flag cleared, whatever the confirmation outcome. -/
theorem depositSubmitPhase_isLoading (o : FlowOutcomes) (L : Ledger)
    (amt : Int) (s : AppState) (hok : o.depositSubmitOk = true) :
    (depositSubmitPhase o L amt s).1.isLoading = false := by
  cases hc : o.depositConfirm <;>
    simp [depositSubmitPhase, depositConfirmContinuation, balanceEffect,
      approvalEffect, waitForTransaction, hok, hc] <;>
    split <;> simp

/-- After a successful submission, the `finally` of `waitForTransaction`
always leaves the progress reset, whatever the confirmation outcome. -/
theorem depositSubmitPhase_progress (o : FlowOutcomes) (L : Ledger)
    (amt : Int) (s : AppState) (hok : o.depositSubmitOk = true) :
    (depositSubmitPhase o L amt s).1.progress = 0 := by
  cases hc : o.depositConfirm <;>
    simp [depositSubmitPhase, depositConfirmContinuation, balanceEffect,
      approvalEffect, waitForTransaction, hok, hc] <;>
    split <;> simp

/-- The deposit-submission phase never touches the allowance cache. -/
theorem depositSubmitPhase_allowance (o : FlowOutcomes) (L : Ledger)
    (amt : Int) (s : AppState) :
    (depositSubmitPhase o L amt s).1.allowance = s.allowance := by
  cases hd : o.depositSubmitOk <;> cases hc : o.depositConfirm <;>
    simp [depositSubmitPhase, depositConfirmContinuation, balanceEffect,
      approvalEffect, waitForTransaction, hd, hc] <;>
    split <;> simp

/-- If the deposit-submission phase performed no confirmed read, the balance
display is unchanged. -/
theorem depositSubmitPhase_balance (o : FlowOutcomes) (L : Ledger)
    (amt : Int) (s : AppState)
    (h : hasRead (depositSubmitPhase o L amt s).2 = false) :
    (depositSubmitPhase o L amt s).1.balance = s.balance := by
  cases hd : o.depositSubmitOk <;> cases hc : o.depositConfirm <;>
    simp_all [depositSubmitPhase, depositConfirmContinuation, balanceEffect,
      approvalEffect, waitForTransaction, hasRead, eventIsRead, hd, hc]

/-- C7: every approval submitted by the deposit flow requests `maxUint256`,
the maximum representable amount `2 ^ 256 - 1`, never the requested deposit
amount (unless that amount itself is the maximum). -/
theorem claim_C7 (pc : Bool) (o : FlowOutcomes) (L : Ledger) (s : AppState) (v : Int)
    (h : Event.approveSubmit v ∈ (depositFlow pc o L s).2) :
    v = maxUint256 ∧ maxUint256 = 2 ^ 256 - 1 ∧
      (∀ a : Int, parseUnits s.amount 18 = some a → a < maxUint256 → v ≠ a) := by
  have hv : v = maxUint256 := by
    simp only [depositFlow] at h
    split at h
    · simp at h
    · split at h
      · simp at h
      · split at h
        · split at h
          · split at h
            · simp at h
              exact h
            · simp [approveSubmit_not_mem_depositSubmitPhase] at h
              exact h
          · simp at h
        · exact absurd h (approveSubmit_not_mem_depositSubmitPhase _ _ _ _ _)
  refine ⟨hv, by decide, ?_⟩
  intro a _ hlt
  omega

/-- Witness for C7: a concrete insufficient-allowance run whose trace contains
the approval submission. -/
theorem claim_C7_witness :
    Event.approveSubmit maxUint256 ∈
        (depositFlow true ⟨true, Outcome.confirmed, true, Outcome.confirmed⟩
          ⟨maxUint256, 100⟩
          { amount := "10", balance := none, isApproved := false,
            isLoading := false, progress := 0, allowance := some 0,
            bankBalance := none }).2 ∧
      maxUint256 = 2 ^ 256 - 1 :=
  ⟨by decide,
    (claim_C7 true ⟨true, Outcome.confirmed, true, Outcome.confirmed⟩
      ⟨maxUint256, 100⟩
      { amount := "10", balance := none, isApproved := false,
        isLoading := false, progress := 0, allowance := some 0,
        bankBalance := none } maxUint256 (by decide)).2.1⟩

/-- C2: in a deposit-flow run whose authorization is insufficient, no prefix
of the event trace contains a deposit submission without also containing the
approval's confirmation: the deposit is submitted only by the continuation
that runs after the approval's confirmation wait completes. -/
theorem claim_C2 (pc : Bool) (o : FlowOutcomes) (L : Ledger) (s : AppState)
    (a : Int) (n : Nat)
    (hins : (match parseUnits s.amount 18 with
             | some amt => !s.isApproved || allowanceBelow s.allowance amt
             | none => true) = true)
    (h : Event.depositSubmit a ∈ ((depositFlow pc o L s).2.take n)) :
    Event.approveConfirmed ∈ ((depositFlow pc o L s).2.take n) := by
  have hsub : Event.depositSubmit a ∈ (depositFlow pc o L s).2 :=
    List.take_subset n _ h
  by_cases hg : s.amount = "" ∨ pc = false
  · simp [depositFlow, hg] at hsub
  · cases hp : parseUnits s.amount 18 with
    | none => simp [depositFlow, hg, hp] at hsub
    | some amt =>
      rw [hp] at hins
      have hins' : s.isApproved = false ∨ allowanceBelow s.allowance amt = true := by
        have h' : (!s.isApproved || allowanceBelow s.allowance amt) = true := hins
        simpa using h'
      by_cases ha : o.approveSubmitOk = true
      · cases hc : o.approveConfirm with
        | failed =>
          rcases hins' with h1 | h1 <;>
            simp [depositFlow, hg, hp, h1, ha, hc] at hsub
        | confirmed =>
          have hshape : ∃ tr', (depositFlow pc o L s).2 =
              Event.approveSubmit maxUint256 :: Event.approveConfirmed :: tr' := by
            rcases hins' with h1 | h1 <;>
              simp [depositFlow, hg, hp, h1, ha, hc]
          obtain ⟨tr', htr⟩ := hshape
          rw [htr] at h ⊢
          rcases n with _ | _ | n
          · simp at h
          · simp [List.take_succ_cons] at h
          · simp [List.take_succ_cons]
      · rcases hins' with h1 | h1 <;>
          simp [depositFlow, hg, hp, h1, ha] at hsub

/-- A concrete never-approved state with the amount field holding `"10"`. -/
def sampleState : AppState :=
  { amount := "10", balance := none, isApproved := false, isLoading := false,
    progress := 0, allowance := some 0, bankBalance := none }

/-- A fully successful run of the environment. -/
def sampleOutcomes : FlowOutcomes :=
  ⟨true, Outcome.confirmed, true, Outcome.confirmed⟩

/-- A remote ledger holding a saturating allowance and an escrow balance. -/
def sampleLedger : Ledger := ⟨maxUint256, 100⟩

/-- Witness for C2: in the concrete insufficient run, the deposit submission
lies in the 5-element prefix and so does the approval confirmation. -/
theorem claim_C2_witness :
    ((match parseUnits sampleState.amount 18 with
      | some amt => !sampleState.isApproved || allowanceBelow sampleState.allowance amt
      | none => true) = true) ∧
      Event.depositSubmit 10000000000000000000 ∈
        ((depositFlow true sampleOutcomes sampleLedger sampleState).2.take 5) ∧
      Event.approveConfirmed ∈
        ((depositFlow true sampleOutcomes sampleLedger sampleState).2.take 5) :=
  ⟨by decide, by decide,
    claim_C2 true sampleOutcomes sampleLedger sampleState 10000000000000000000 5
      (by decide) (by decide)⟩

/-- C6: in an insufficient-authorization deposit run whose approval submission
succeeds, exactly one approval is ever submitted (the re-invocation bypasses
the sufficiency check, so no re-approval loop), at most one deposit is
submitted; on approval failure the deposit intent is aborted (no deposit
submission, loading cleared) and not retried; on approval confirmation the
allowance is refreshed from the ledger and the deposit is then submitted
exactly once. -/
theorem claim_C6 (pc : Bool) (o : FlowOutcomes) (L : Ledger) (s : AppState)
    (a : Int) (hpc : pc = true) (hne : s.amount ≠ "")
    (hparse : parseUnits s.amount 18 = some a)
    (hins : s.isApproved = false ∨ allowanceBelow s.allowance a = true)
    (hsub : o.approveSubmitOk = true) :
    (depositFlow pc o L s).2.countP eventIsApproveSubmit = 1 ∧
      (depositFlow pc o L s).2.countP eventIsDepositSubmit ≤ 1 ∧
      (o.approveConfirm = Outcome.failed →
        (depositFlow pc o L s).2.countP eventIsDepositSubmit = 0 ∧
          (depositFlow pc o L s).1.isLoading = false) ∧
      (o.approveConfirm = Outcome.confirmed →
        Event.allowanceRead L.allowance ∈ (depositFlow pc o L s).2 ∧
          (o.depositSubmitOk = true →
            (depositFlow pc o L s).2.countP eventIsDepositSubmit = 1)) := by
  have hg : ¬(s.amount = "" ∨ pc = false) := by simp [hne, hpc]
  cases hc : o.approveConfirm with
  | failed =>
    rcases hins with h1 | h1 <;>
      simp [depositFlow, hg, hparse, h1, hsub, hc, waitForTransaction,
        eventIsApproveSubmit, eventIsDepositSubmit]
  | confirmed =>
    rcases hins with h1 | h1 <;>
      simp [depositFlow, hg, hparse, h1, hsub, hc,
        depositSubmitPhase_countDeposit, depositSubmitPhase_countApprove,
        eventIsApproveSubmit, eventIsDepositSubmit] <;>
      split <;> simp

/-- Witness for C6 at the concrete successful run. -/
theorem claim_C6_witness :
    (depositFlow true sampleOutcomes sampleLedger sampleState).2.countP
        eventIsApproveSubmit = 1 ∧
      (depositFlow true sampleOutcomes sampleLedger sampleState).2.countP
        eventIsDepositSubmit = 1 :=
  ⟨(claim_C6 true sampleOutcomes sampleLedger sampleState 10000000000000000000
      (by decide) (by decide) (by decide) (Or.inl (by decide)) (by decide)).1,
    ((claim_C6 true sampleOutcomes sampleLedger sampleState 10000000000000000000
      (by decide) (by decide) (by decide) (Or.inl (by decide)) (by decide)).2.2.2
      (by decide)).2 (by decide)⟩

/-- An environment in which every `writeContract` submission fails (wallet or
node rejection before inclusion — the spec's `SubmissionError`). -/
def submitFailOutcomes : FlowOutcomes :=
  ⟨false, Outcome.confirmed, false, Outcome.confirmed⟩

/-- A concrete quiescent state about to withdraw: the cached balance display
shows 100 and the amount field holds `"10"`. -/
def withdrawRetryState : AppState :=
  { amount := "10", balance := some 100, isApproved := true, isLoading := false,
    progress := 0, allowance := some maxUint256, bankBalance := some 100 }

/-- C8 (code bug): the claim — every terminal outcome clears the pending and
progress indicators, and a submission failure frees the lane immediately — is
what the spec requires, but the code violates it on the submission-failure
outcome. wagmi's `writeContract` is a mutate that never throws into the
handlers' `catch`, and the component never reads the hook's error state, so
after a failed submission nothing resets the flags that were set before the
call. Evaluated at quiescent states with `"10"` in the amount field: a failed
withdraw submission ends with `isLoading = true` and `progress` stuck at 25,
no transaction tracked, and every further click on either button dead (the
lane is never freed); a failed approve submission in an insufficient deposit
run likewise ends stuck at `isLoading = true`, `progress = 10`. Only the
confirmation waits, whose `finally` really runs, clear the indicators. -/
theorem claim_C8 :
    (withdrawFlow true false Outcome.confirmed sampleLedger
          withdrawRetryState).1.isLoading = true ∧
      (withdrawFlow true false Outcome.confirmed sampleLedger
          withdrawRetryState).1.progress = 25 ∧
      (withdrawFlow true false Outcome.confirmed sampleLedger
          withdrawRetryState).2 = [] ∧
      clickWithdraw true
          (withdrawFlow true false Outcome.confirmed sampleLedger
            withdrawRetryState).1 = WithdrawAction.noop ∧
      clickDeposit true
          (withdrawFlow true false Outcome.confirmed sampleLedger
            withdrawRetryState).1 = DepositAction.noop ∧
      (depositFlow true submitFailOutcomes sampleLedger
          sampleState).1.isLoading = true ∧
      (depositFlow true submitFailOutcomes sampleLedger
          sampleState).1.progress = 10 := by
  refine ⟨?_, ?_, ?_, ?_, ?_, ?_, ?_⟩ <;> decide

/-- C5: the cached balance display and allowance are never mutated by a
submission — in any deposit-flow run whose trace contains no confirmed read
they are unchanged — and a failed withdraw confirmation leaves the balance
display and allowance cache at their pre-withdraw values while freeing the
withdraw lane: the loading flag ends false and a subsequent `handleWithdraw`
for the same (unchanged) amount submits again. -/
theorem claim_C5 (pc : Bool) (o : FlowOutcomes) (L : Ledger) (s : AppState) :
    (hasRead (depositFlow pc o L s).2 = false →
        (depositFlow pc o L s).1.balance = s.balance ∧
          (depositFlow pc o L s).1.allowance = s.allowance) ∧
      (withdrawFlow pc true Outcome.failed L s).1.balance = s.balance ∧
      (withdrawFlow pc true Outcome.failed L s).1.allowance = s.allowance ∧
      (∀ a : Int, s.amount ≠ "" → pc = true → parseUnits s.amount 18 = some a →
        (withdrawFlow pc true Outcome.failed L s).1.isLoading = false ∧
          handleWithdraw pc (withdrawFlow pc true Outcome.failed L s).1 =
            WithdrawAction.submitWithdraw a) := by
  have hwd : (withdrawFlow pc true Outcome.failed L s).1.balance = s.balance ∧
      (withdrawFlow pc true Outcome.failed L s).1.allowance = s.allowance ∧
      (∀ a : Int, s.amount ≠ "" → pc = true → parseUnits s.amount 18 = some a →
        (withdrawFlow pc true Outcome.failed L s).1.isLoading = false ∧
          handleWithdraw pc (withdrawFlow pc true Outcome.failed L s).1 =
            WithdrawAction.submitWithdraw a) := by
    by_cases hg : s.amount = "" ∨ pc = false
    · refine ⟨by simp [withdrawFlow, hg], by simp [withdrawFlow, hg], ?_⟩
      intro a hne hpc _
      exact absurd hg (by simp [hne, hpc])
    · cases hp : parseUnits s.amount 18 with
      | none =>
        refine ⟨by simp [withdrawFlow, hg, hp], by simp [withdrawFlow, hg, hp], ?_⟩
        intro a _ _ hp'
        exact absurd hp' (by simp)
      | some amt =>
        refine ⟨by simp [withdrawFlow, hg, hp, waitForTransaction],
          by simp [withdrawFlow, hg, hp, waitForTransaction], ?_⟩
        intro a hne hpc hp'
        obtain rfl : amt = a := by injection hp'
        constructor
        · simp [withdrawFlow, hg, hp, waitForTransaction]
        · have hamt : (withdrawFlow pc true Outcome.failed L s).1.amount = s.amount := by
            simp [withdrawFlow, hg, hp, waitForTransaction]
          subst hpc
          simp [handleWithdraw, hamt, hne, hp]
  refine ⟨?_, hwd.1, hwd.2.1, hwd.2.2⟩
  intro hread
  by_cases hg : s.amount = "" ∨ pc = false
  · simp [depositFlow, hg]
  · cases hp : parseUnits s.amount 18 with
    | none => simp [depositFlow, hg, hp]
    | some amt =>
      cases hb : (!s.isApproved || allowanceBelow s.allowance amt) with
      | false =>
        rw [show (depositFlow pc o L s) = depositSubmitPhase o L amt s by
          simp [depositFlow, hg, hp, hb]] at hread ⊢
        exact ⟨depositSubmitPhase_balance o L amt s hread,
          depositSubmitPhase_allowance o L amt s⟩
      | true =>
        cases ha : o.approveSubmitOk with
        | false => simp [depositFlow, hg, hp, hb, ha]
        | true =>
          cases hc : o.approveConfirm with
          | failed => simp [depositFlow, hg, hp, hb, ha, hc, waitForTransaction]
          | confirmed =>
            rw [show (depositFlow pc o L s).2 =
                Event.approveSubmit maxUint256 :: Event.approveConfirmed ::
                  Event.allowanceRead L.allowance ::
                  (depositSubmitPhase o L amt (approvalEffect
                    { waitForTransaction
                        { s with isLoading := true, progress := 10 } with
                      allowance := some L.allowance })).2 by
              simp [depositFlow, hg, hp, hb, ha, hc]] at hread
            simp [hasRead, eventIsRead] at hread

/-- Witness for C5: after a failed withdraw confirmation the balance display
still shows the pre-withdraw 100 and a retry for the same amount submits. -/
theorem claim_C5_witness :
    (withdrawFlow true true Outcome.failed sampleLedger withdrawRetryState).1.balance
        = some 100 ∧
      handleWithdraw true
          (withdrawFlow true true Outcome.failed sampleLedger withdrawRetryState).1 =
        WithdrawAction.submitWithdraw 10000000000000000000 := by
  have h := claim_C5 true sampleOutcomes sampleLedger withdrawRetryState
  exact ⟨h.2.1, (h.2.2.2 10000000000000000000 (by decide) rfl (by decide)).2⟩

/-- C9: `handleGetBalance` formats the `bankBalance` captured in its closure
before the refetch — its displayed value is independent of the refetched
value; on a freshly connected account (closure value never observed) the
handler leaves the display unchanged, and only the separate effect on the new
`bankBalance` corrects the display afterwards. -/
theorem claim_C9 (f1 f2 : Int) (s : AppState) :
    (handleGetBalance f1 s).balance = (handleGetBalance f2 s).balance ∧
      (∀ v : Int, s.bankBalance = some v → v ≠ 0 →
        (handleGetBalance f1 s).balance = some v) ∧
      (s.bankBalance = none → (handleGetBalance f1 s).balance = s.balance) ∧
      (s.bankBalance = none → f1 ≠ 0 →
        (balanceEffect (handleGetBalance f1 s)).balance = some f1) := by
  cases hb : s.bankBalance with
  | none =>
    simp [handleGetBalance, balanceEffect, hb]
    intro hf
    simp [hf]
  | some v =>
    by_cases hv : v = 0 <;>
      simp [handleGetBalance, balanceEffect, hb, hv]

/-- Witness for C9: a fresh account (no observed balance) with any refetched
value 7 — the handler leaves the display empty, the effect then shows 7. -/
theorem claim_C9_witness :
    (handleGetBalance 7 sampleState).balance = (handleGetBalance 9 sampleState).balance ∧
      (handleGetBalance 7 sampleState).balance = sampleState.balance ∧
      (balanceEffect (handleGetBalance 7 sampleState)).balance = some 7 := by
  have h := claim_C9 7 9 sampleState
  exact ⟨h.1, h.2.2.1 (by decide), h.2.2.2 (by decide) (by decide)⟩

/-- A state in which a withdraw (or deposit) transaction is in flight: the
loading flag is set and the amount field still holds `"10"`. -/
def pendingLaneState : AppState :=
  { amount := "10", balance := some 100, isApproved := true, isLoading := true,
    progress := 50, allowance := some maxUint256, bankBalance := some 100 }

/-- Counterexample to C3: while an intent is pending (`isLoading = true`), a
second direct call of `handleWithdraw` submits a second withdraw transaction
— it is not rejected, and no `ValidationError` value exists anywhere in the
component — and a second direct call of `handleDeposit` likewise submits a
second deposit (a side effect). The handlers perform no lane check. -/
theorem claim_C3_counterexample :
    pendingLaneState.isLoading = true ∧
      handleWithdraw true pendingLaneState =
        WithdrawAction.submitWithdraw 10000000000000000000 ∧
      handleDeposit false true pendingLaneState =
        DepositAction.submitDeposit 10000000000000000000 := by
  refine ⟨rfl, ?_, ?_⟩ <;> decide

/-- C3 as amended: duplicate suppression exists only at the presentation
layer — both action buttons carry `disabled={!amount || isLoading}`, so while
an intent is pending a user click invokes no handler and has no side effect
(and produces no error value). -/
theorem claim_C3_amended (pc : Bool) (s : AppState) (h : s.isLoading = true) :
    clickDeposit pc s = DepositAction.noop ∧
      clickWithdraw pc s = WithdrawAction.noop := by
  simp [clickDeposit, clickWithdraw, h]

/-- Witness for the amended C3 at the concrete pending state. -/
theorem claim_C3_amended_witness :
    pendingLaneState.isLoading = true ∧
      clickDeposit true pendingLaneState = DepositAction.noop ∧
      clickWithdraw true pendingLaneState = WithdrawAction.noop :=
  ⟨rfl, (claim_C3_amended true pendingLaneState rfl).1,
    (claim_C3_amended true pendingLaneState rfl).2⟩

/-- The amount field holds `"-5"`; the `isApproved` effect has run for it
(any observed allowance is `>= -5 * 10^18`, so it set `isApproved = true`). -/
def negAmountState : AppState :=
  { amount := "-5", balance := none, isApproved := true, isLoading := false,
    progress := 0, allowance := some 0, bankBalance := none }

/-- The amount field holds the unparseable string `"abc"`. -/
def abcAmountState : AppState :=
  { amount := "abc", balance := some 100, isApproved := true, isLoading := false,
    progress := 0, allowance := some 7, bankBalance := some 100 }

/-- Counterexample to C4: for the non-positive amount `"-5"` (which viem's
`parseUnits` parses to `-5 * 10^18`), the `isApproved` effect itself computes
`true`, `handleDeposit` submits a deposit and `handleWithdraw` submits a
withdraw — a LedgerClient call is made, nothing is rejected, and no
`ValidationError` exists in the component. -/
theorem claim_C4_counterexample :
    isApprovedUpdate negAmountState.allowance negAmountState.amount false =
        negAmountState.isApproved ∧
      handleDeposit false true negAmountState =
        DepositAction.submitDeposit (-5000000000000000000) ∧
      handleWithdraw true negAmountState =
        WithdrawAction.submitWithdraw (-5000000000000000000) := by
  refine ⟨?_, ?_, ?_⟩ <;> decide

/-- Whether a `handleDeposit` action reaches LedgerClient (an approval or a
deposit submission). -/
def depositMakesCall : DepositAction → Bool
  | DepositAction.callApprove => true
  | DepositAction.submitDeposit _ => true
  | _ => false

/-- Whether a `handleWithdraw` action reaches LedgerClient. -/
def withdrawMakesCall : WithdrawAction → Bool
  | WithdrawAction.submitWithdraw _ => true
  | _ => false

/-- C4 as amended: an empty amount makes both handlers return silently with no
LedgerClient call, and an unparseable amount such as `"abc"` throws inside
`parseUnits`, is caught and logged, again with no LedgerClient call — but no
`ValidationError` is surfaced, and parseable non-positive amounts such as
`"-5"` are not rejected at all (a submission call is made for them). -/
theorem claim_C4_amended (skip pc : Bool) (s : AppState)
    (h : s.amount = "" ∨ parseUnits s.amount 18 = none) :
    depositMakesCall (handleDeposit skip pc s) = false ∧
      withdrawMakesCall (handleWithdraw pc s) = false := by
  by_cases hg : s.amount = "" ∨ pc = false
  · simp [handleDeposit, handleWithdraw, hg, depositMakesCall, withdrawMakesCall]
  · rcases h with h | h
    · exact absurd (Or.inl h) hg
    · simp [handleDeposit, handleWithdraw, hg, h, depositMakesCall,
        withdrawMakesCall]

/-- Witness for the amended C4 at the `"abc"` state. -/
theorem claim_C4_amended_witness :
    (abcAmountState.amount = "" ∨ parseUnits abcAmountState.amount 18 = none) ∧
      depositMakesCall (handleDeposit false true abcAmountState) = false ∧
      withdrawMakesCall (handleWithdraw true abcAmountState) = false :=
  ⟨Or.inr (by decide),
    (claim_C4_amended false true abcAmountState (Or.inr (by decide))).1,
    (claim_C4_amended false true abcAmountState (Or.inr (by decide))).2⟩

/-- Counterexample to C10: the amount input `"abc"` is non-empty, yet
`handleWithdraw` submits nothing — `parseUnits` throws and the `catch`
swallows it — so "for every non-empty amount input the withdraw transaction
is submitted" fails as stated. -/
theorem claim_C10_counterexample :
    abcAmountState.amount ≠ "" ∧
      handleWithdraw true abcAmountState = WithdrawAction.parseError ∧
      withdrawMakesCall (handleWithdraw true abcAmountState) = false := by
  refine ⟨by decide, ?_, ?_⟩ <;> decide

/-- C10 as amended: `handleWithdraw` performs no comparison of the requested
amount against the cached escrow balance — its result is unchanged under any
values of the cached balance display and `bankBalance` — and for every
non-empty, parseable amount the withdraw is submitted unconditionally (any
excess over the user's escrowed balance is left to the remote contract). -/
theorem claim_C10_amended (pc : Bool) (s : AppState) (a : Int) (b bb : Option Int)
    (hpc : pc = true) (hne : s.amount ≠ "")
    (hparse : parseUnits s.amount 18 = some a) :
    handleWithdraw pc s = WithdrawAction.submitWithdraw a ∧
      handleWithdraw pc { s with balance := b, bankBalance := bb } =
        WithdrawAction.submitWithdraw a := by
  subst hpc
  constructor <;> simp [handleWithdraw, hne, hparse]

/-- Witness for the amended C10: with `"10"` in the amount field the withdraw
submits `10 * 10^18` whatever the cached balances are. -/
theorem claim_C10_amended_witness :
    withdrawRetryState.amount ≠ "" ∧
      handleWithdraw true withdrawRetryState =
        WithdrawAction.submitWithdraw 10000000000000000000 ∧
      handleWithdraw true
          { withdrawRetryState with balance := some 0, bankBalance := some 0 } =
        WithdrawAction.submitWithdraw 10000000000000000000 :=
  ⟨by decide,
    (claim_C10_amended true withdrawRetryState 10000000000000000000
      (some 0) (some 0) rfl (by decide) (by decide)).1,
    (claim_C10_amended true withdrawRetryState 10000000000000000000
      (some 0) (some 0) rfl (by decide) (by decide)).2⟩
